import Mathlib

/-!
Shallow embedding of the Square integration layer of this repository
(src/services/squareIntegration.ts, first copy, and the proxy-based variant
in src/unnamed/part_000) together with theorems settling the frozen claims.

JavaScript numbers are modelled as rationals; network effects are modelled by
passing the remote responses as explicit arguments and returning, next to the
result, the list of requests the operation issued.
-/

namespace SquareSpec

/-- JavaScript numbers, modelled as rationals. -/
abbrev JsNum := Rat

/-- Truthiness of an optional JS number: undefined and 0 are falsy. -/
def jsTruthyNum : Option JsNum → Bool
  | none => false
  | some x => !(x == 0)

/-- Truthiness of an optional JS string: undefined and the empty string are falsy. -/
def jsTruthyStr : Option String → Bool
  | none => false
  | some s => !(s == "")

/-- The JS expression a || b on strings: b when a is falsy (empty). -/
def jsOrStr (a b : String) : String := if a == "" then b else a

/-- The JS expression a || b on numbers: b when a is falsy (zero). -/
def jsOrNum (a b : JsNum) : JsNum := if a == 0 then b else a

/-- JS Math.round: round half toward positive infinity. -/
def jsMathRound (x : JsNum) : Int := (x + 1/2).floor

/-! ## Catalog translation (fetchCatalog, squareIntegration.ts lines 241 - 266) -/

/-- Remote price_money object. -/
structure PriceMoney where
  amount : JsNum
deriving DecidableEq

/-- Remote item_variation_data object. -/
structure ItemVariationData where
  name : String
  available_for_booking : Bool
  price_money : Option PriceMoney
  service_duration : Option JsNum
deriving DecidableEq

/-- Remote catalog variation object. -/
structure CatalogVariation where
  id : String
  version : Nat
  item_variation_data : ItemVariationData
deriving DecidableEq

/-- Remote item_data object; variations is an optional array. -/
structure ItemData where
  name : String
  variations : Option (List CatalogVariation)
deriving DecidableEq

/-- Remote catalog item; item_data is accessed with optional chaining. -/
structure CatalogItem where
  item_data : Option ItemData
deriving DecidableEq

/-- Canonical application service record as pushed by fetchCatalog. -/
structure Service where
  id : String
  version : Nat
  name : String
  category : String
  cost : JsNum
  duration : JsNum
deriving DecidableEq

/-- Service name: itemName, with the variation name appended after a dash
whenever it is not the literal "Regular". -/
def serviceName (itemName variationName : String) : String :=
  itemName ++ (if variationName ≠ "Regular" then " - " ++ variationName else "")

/-- Cost: price_money?.amount ? amount / 100 : 0. -/
def costOfPrice (pm : Option PriceMoney) : JsNum :=
  let amt := pm.map PriceMoney.amount
  if jsTruthyNum amt then amt.getD 0 / 100 else 0

/-- Duration: service_duration ? service_duration / 60000 : 60
(squareIntegration.ts line 258; a falsy duration, absent or 0, gives 60). -/
def durationToMinutes (sd : Option JsNum) : JsNum :=
  if jsTruthyNum sd then sd.getD 0 / 60000 else 60

/-- Duration translation of the proxy variant (src/unnamed/part_000 line 155):
durationMs ? durationMs / 1000 / 60 : 0. -/
def proxyDurationToMinutes (sd : Option JsNum) : JsNum :=
  if jsTruthyNum sd then sd.getD 0 / 1000 / 60 else 0

/-- Services contributed by one catalog item: each variation with
available_for_booking set is translated, in order. -/
def itemServices (item : CatalogItem) : List Service :=
  match item.item_data with
  | none => []
  | some idata =>
      ((idata.variations.getD []).filter
          (fun v => v.item_variation_data.available_for_booking)).map
        (fun v =>
          { id := v.id
            version := v.version
            name := serviceName idata.name v.item_variation_data.name
            category := "Square Import"
            cost := costOfPrice v.item_variation_data.price_money
            duration := durationToMinutes v.item_variation_data.service_duration })

/-- fetchCatalog body translation: flatten the per-item services in item order;
an absent items array gives the empty list. -/
def fetchCatalogServices (items : Option (List CatalogItem)) : List Service :=
  match items with
  | none => []
  | some is => (is.map itemServices).flatten

/-- A catalog holding one item "Haircut" with a bookable "Regular" variation
(3000 minor units, 1800000 ms) and a bookable "Deluxe" variation
(5000 minor units, 2400000 ms). -/
def haircutCatalog (rid did : String) (rv dv : Nat) : Option (List CatalogItem) :=
  some [{ item_data := some
            { name := "Haircut"
              variations := some
                [ { id := rid, version := rv
                    item_variation_data :=
                      { name := "Regular", available_for_booking := true
                        price_money := some { amount := 3000 }
                        service_duration := some 1800000 } }
                , { id := did, version := dv
                    item_variation_data :=
                      { name := "Deluxe", available_for_booking := true
                        price_money := some { amount := 5000 }
                        service_duration := some 2400000 } } ] } }]

/-! ## Cursor pagination (fetchAllBookings lines 175 - 189, fetchCustomers lines 287 - 312) -/

/-- One response page of the bookings endpoint: an optional bookings array and
an optional cursor. Booking records themselves are opaque. -/
structure BookingsPage (α : Type) where
  bookings : Option (List α)
  cursor : Option String
deriving DecidableEq

/-- Remote customer record as consumed by fetchCustomers. -/
structure SquareCustomer where
  id : String
  given_name : Option String
  family_name : Option String
  email_address : Option String
  phone_number : Option String
deriving DecidableEq

/-- Canonical application client record as pushed by fetchCustomers. -/
structure Client where
  id : String
  externalId : String
  name : String
  email : String
  phone : String
  avatarUrl : String
deriving DecidableEq

/-- One response page of the customers endpoint. -/
structure CustomersPage where
  customers : Option (List SquareCustomer)
  cursor : Option String
deriving DecidableEq

/-- Customer to client translation of fetchCustomers (lines 296 - 306);
enc stands for the host encodeURIComponent. -/
def toClient (enc : String → String) (c : SquareCustomer) : Client :=
  { id := c.id
    externalId := c.id
    name := jsOrStr ((c.given_name.getD "" ++ " " ++ c.family_name.getD "").trim)
              "Unnamed Customer"
    email := c.email_address.getD ""
    phone := c.phone_number.getD ""
    avatarUrl := "https://ui-avatars.com/api/?name="
                   ++ enc (jsOrStr (c.given_name.getD "") "U") ++ "&background=random" }

/-- The do-while of fetchAllBookings, run against the sequence of pages the
server answers with: consume one page per request, append its bookings, and
continue with the returned cursor while that cursor is truthy. The second
component records, in order, the cursor attached to each request (none on the
first request). Returns none when the loop would request past the supplied
pages. -/
def fetchAllBookingsLoop {α : Type} :
    List (BookingsPage α) → Option String → Option (List α × List (Option String))
  | [], _ => none
  | p :: rest, c =>
      let got := p.bookings.getD []
      if jsTruthyStr p.cursor then
        match fetchAllBookingsLoop rest p.cursor with
        | none => none
        | some (items, reqs) => some (got ++ items, c :: reqs)
      else
        some (got, [c])

/-- fetchAllBookings: start the pagination loop with no cursor. -/
def fetchAllBookingsRun {α : Type} (pages : List (BookingsPage α)) :
    Option (List α × List (Option String)) :=
  fetchAllBookingsLoop pages none

/-- The do-while of fetchCustomers: same loop shape, pushing the translation
of every customer of every page. -/
def fetchCustomersLoop (enc : String → String) :
    List CustomersPage → Option String → Option (List Client × List (Option String))
  | [], _ => none
  | p :: rest, c =>
      let got := (p.customers.getD []).map (toClient enc)
      if jsTruthyStr p.cursor then
        match fetchCustomersLoop enc rest p.cursor with
        | none => none
        | some (items, reqs) => some (got ++ items, c :: reqs)
      else
        some (got, [c])

/-- fetchCustomers: start the pagination loop with no cursor. -/
def fetchCustomersRun (enc : String → String) (pages : List CustomersPage) :
    Option (List Client × List (Option String)) :=
  fetchCustomersLoop enc pages none

/-- A well-formed page sequence: at least one page, every page but the last
carries a truthy (non-empty) cursor, and the last carries no truthy cursor. -/
def bookingsChainOk {α : Type} : List (BookingsPage α) → Bool
  | [] => false
  | [p] => !(jsTruthyStr p.cursor)
  | p :: q :: rest => jsTruthyStr p.cursor && bookingsChainOk (q :: rest)

/-- Well-formed customers page sequence, as bookingsChainOk. -/
def customersChainOk : List CustomersPage → Bool
  | [] => false
  | [p] => !(jsTruthyStr p.cursor)
  | p :: q :: rest => jsTruthyStr p.cursor && customersChainOk (q :: rest)

/-! ## Team, availability and booking (lines 125 - 239 and 268 - 285) -/

/-- Capability set attached to a stylist; the two trailing fields only appear
in the proxy variant and are left absent by the main one. -/
structure StylistPermissions where
  canBookAppointments : Bool
  canOfferDiscounts : Bool
  requiresDiscountApproval : Bool
  viewGlobalReports : Bool
  viewClientContact : Option Bool := none
  viewAllSalonPlans : Option Bool := none
deriving DecidableEq

/-- Canonical stylist record. -/
structure Stylist where
  id : String
  name : String
  role : String
  email : String
  levelId : String
  permissions : StylistPermissions
deriving DecidableEq

/-- Remote team member booking profile (fetchTeam, main variant). -/
structure TeamProfile where
  team_member_id : String
  display_name : String
  is_bookable : Bool
deriving DecidableEq

/-- fetchTeam of squareIntegration.ts (lines 268 - 285): keep the bookable
profiles, in order, and translate each to a stylist. -/
def fetchTeamStylists (profiles : Option (List TeamProfile)) : List Stylist :=
  ((profiles.getD []).filter (fun p => p.is_bookable)).map
    (fun p =>
      { id := p.team_member_id
        name := p.display_name
        role := "Stylist"
        email := ""
        levelId := "lvl_1"
        permissions :=
          { canBookAppointments := true
            canOfferDiscounts := false
            requiresDiscountApproval := false
            viewGlobalReports := false } })

/-- A thrown JS value: either new Error(message) or the SyntaxError raised by
JSON.parse on undecodable text (carried here with that text). -/
inductive JsThrow where
  | error (message : String)
  | jsonSyntaxError (text : String)
deriving DecidableEq

/-- JS String.prototype.startsWith, as a structural test on the character
lists of the two strings. -/
def jsStartsWith (s pre : String) : Bool :=
  pre.data.isPrefixOf s.data

/-- The shared team member id validity test (lines 149 and 204):
falsy (empty), placeholder prefixed with TM-, or the admin sentinel. -/
def isInvalidForFilter (id : String) : Bool :=
  id == "" || jsStartsWith id "TM-" || id == "admin"

/-- The any-of team member filter object. -/
structure TeamMemberIdFilter where
  any : List String
deriving DecidableEq

/-- Segment filter of the availability search body; the team member filter
field is omitted (none) when the supplied id is invalid for filtering. -/
structure SegmentFilter where
  service_variation_id : String
  team_member_id_filter : Option TeamMemberIdFilter
deriving DecidableEq

/-- Segment filter construction of findAvailableSlots (lines 137 - 153). -/
def mkSegmentFilter (serviceVariationId teamMemberId : String) : SegmentFilter :=
  { service_variation_id := serviceVariationId
    team_member_id_filter :=
      if isInvalidForFilter teamMemberId then none
      else some { any := [teamMemberId] } }

/-- start_at_range object of the availability search body. -/
structure StartAtRange where
  start_at : String
  end_at : String
deriving DecidableEq

/-- filter object of the availability search body. -/
structure AvailFilter where
  location_id : String
  start_at_range : StartAtRange
  segment_filters : List SegmentFilter
deriving DecidableEq

/-- Availability search request body: { query: { filter: ... } }. -/
structure AvailBody where
  filter : AvailFilter
deriving DecidableEq

/-- Parameters of findAvailableSlots. -/
structure SlotParams where
  locationId : String
  startAt : String
  teamMemberId : String
  serviceVariationId : String
deriving DecidableEq

/-- One availability record of the search response. -/
structure Availability where
  start_at : String
deriving DecidableEq

/-- The availability search body built at lines 155 - 166: a 30 day window
from the parsed start instant (startMs, in ms); toIso stands for the host
Date.toISOString. -/
def mkAvailBody (toIso : Int → String) (p : SlotParams) (startMs : Int) : AvailBody :=
  { filter :=
      { location_id := p.locationId
        start_at_range :=
          { start_at := p.startAt
            end_at := toIso (startMs + 30 * 24 * 60 * 60 * 1000) }
        segment_filters := [mkSegmentFilter p.serviceVariationId p.teamMemberId] } }

/-- findAvailableSlots (lines 125 - 173): parseDate stands for the host
new Date(s).getTime() (none on an invalid date); avail is the availabilities
array of the response. Returns the issued search bodies and the outcome. -/
def findAvailableSlotsRun (parseDate : String → Option Int) (toIso : Int → String)
    (avail : Option (List Availability)) (p : SlotParams) :
    List AvailBody × Except JsThrow (List String) :=
  match parseDate p.startAt with
  | none => ([], .error (.error "Invalid start time passed to Square."))
  | some t =>
      ([mkAvailBody toIso p t],
       .ok ((avail.getD []).map Availability.start_at))

/-! ## createAppointment, main variant (lines 191 - 239) -/

/-- Input of createAppointment. -/
structure BookingDetails where
  locationId : String
  startAt : String
  customerId : String
  teamMemberId : String
  services : List Service
deriving DecidableEq

/-- One appointment segment of the main booking body (lines 225 - 233). -/
structure SegmentMain where
  duration_minutes : Int
  service_variation_id : String
  service_variation_version : Nat
  team_member_id : String
deriving DecidableEq

/-- booking object of the main request body. -/
structure BookingMain where
  location_id : String
  start_at : String
  customer_id : String
  appointment_segments : List SegmentMain
deriving DecidableEq

/-- Main booking request body, carrying the idempotency key generated for the
attempt (crypto.randomUUID() at line 220). -/
structure BookingBodyMain where
  idempotency_key : String
  booking : BookingMain
deriving DecidableEq

/-- Segment construction: duration_minutes = Math.round(duration || 60). -/
def mkSegmentMain (resolvedTm : String) (s : Service) : SegmentMain :=
  { duration_minutes := jsMathRound (jsOrNum s.duration 60)
    service_variation_id := s.id
    service_variation_version := s.version
    team_member_id := resolvedTm }

/-- Main booking body construction (lines 219 - 235); freshKey is the UUID
generated for this submission attempt. -/
def mkBookingBodyMain (freshKey : String) (d : BookingDetails) (resolvedTm : String) :
    BookingBodyMain :=
  { idempotency_key := freshKey
    booking :=
      { location_id := d.locationId
        start_at := d.startAt
        customer_id := d.customerId
        appointment_segments := d.services.map (mkSegmentMain resolvedTm) } }

/-- Requests issued by the main createAppointment: the optional roster fetch
and the booking creation POST with its body. -/
inductive MainRequest where
  | fetchTeam
  | createBooking (body : BookingBodyMain)
deriving DecidableEq

/-- A JSON value, as produced by the host JSON.parse or by object literals. -/
inductive Json where
  | null : Json
  | boolean : Bool → Json
  | num : JsNum → Json
  | str : String → Json
  | arr : List Json → Json
  | obj : List (String × Json) → Json

/-- Field access on a JSON object (none on non-objects or missing keys). -/
def Json.getField : Json → String → Option Json
  | .obj fields, k => fields.lookup k
  | _, _ => none

/-- createAppointment, main variant (lines 191 - 239). freshKey is the UUID
generated for this attempt, profiles the roster the team endpoint would
answer with, bookingResp the booking object of the creation response.
Returns the issued requests and the outcome. -/
def createAppointmentRun (freshKey : String) (profiles : Option (List TeamProfile))
    (bookingResp : Json) (d : BookingDetails) :
    List MainRequest × Except JsThrow Json :=
  if d.locationId = "" then
    ([], .error (.error "Location ID is required for booking."))
  else if d.customerId = "" then
    ([], .error (.error "Customer ID is required for booking."))
  else if isInvalidForFilter d.teamMemberId then
    match fetchTeamStylists profiles with
    | [] =>
        ([MainRequest.fetchTeam],
         .error (.error
           "No bookable team members found in Square to assign this appointment to."))
    | m :: _ =>
        ([MainRequest.fetchTeam,
          MainRequest.createBooking (mkBookingBodyMain freshKey d m.id)],
         .ok bookingResp)
  else
    ([MainRequest.createBooking (mkBookingBodyMain freshKey d d.teamMemberId)],
     .ok bookingResp)

/-! ## Response body handling (fetchFromSquare lines 86 - 109,
squareProxyFetch in src/unnamed/part_000 lines 14 - 41) -/

/-- Truthiness of an optional JSON value. -/
def jsTruthyJson : Option Json → Bool
  | none => false
  | some .null => false
  | some (.boolean b) => b
  | some (.num n) => !(n == 0)
  | some (.str s) => !(s == "")
  | some (.arr _) => true
  | some (.obj _) => true

/-- Template literal rendering of an optional JSON value, as in
a template string interpolating err.detail or err.field. -/
def jsDisplay : Option Json → String
  | none => "undefined"
  | some .null => "null"
  | some (.boolean b) => if b then "true" else "false"
  | some (.num n) => toString n
  | some (.str s) => s
  | some (.arr _) => ""
  | some (.obj _) => "[object Object]"

/-- Error message assembled from a decoded failure body: the detail of
errors[0] with an optional field suffix, or the supplied fallback when no
structured error is present. -/
def squareErrorMessage (data : Json) (fallback : String) : String :=
  let err := (data.getField "errors").bind fun e =>
    match e with
    | .arr (x :: _) => some x
    | _ => none
  if jsTruthyJson err then
    let fieldv := err.bind (fun e => e.getField "field")
    let fieldInfo :=
      if jsTruthyJson fieldv then " (Field: " ++ jsDisplay fieldv ++ ")" else ""
    jsDisplay (err.bind (fun e => e.getField "detail")) ++ fieldInfo
  else fallback

/-- Response handling of fetchFromSquare (lines 102 - 108): response.json()
is called directly, so an undecodable body raises the raw JSON parse
exception; parse stands for the host JSON.parse, ok and status for the
response flags. -/
def fetchFromSquareHandle (parse : String → Option Json) (ok : Bool) (status : Nat)
    (text : String) : Except JsThrow Json :=
  match parse text with
  | none => .error (.jsonSyntaxError text)
  | some data =>
      if ok then .ok data
      else .error (.error (squareErrorMessage data ("HTTP Error " ++ toString status)))

/-- Body decoding of squareProxyFetch (part_000 lines 27 - 33): read the body
as text, decode inside a try, and substitute a synthetic error object
carrying the raw text on decode failure; empty text decodes to {}. -/
def proxyParseBody (parse : String → Option Json) (text : String) : Json :=
  if text = "" then Json.obj []
  else
    match parse text with
    | some d => d
    | none => Json.obj [("error", Json.obj [("detail", Json.str text)])]

/-- Response handling of squareProxyFetch (part_000 lines 27 - 40). -/
def squareProxyFetchHandle (parse : String → Option Json) (ok : Bool) (status : Nat)
    (text : String) : Except JsThrow Json :=
  let data := proxyParseBody parse text
  if ok then .ok data
  else .error (.error (squareErrorMessage data
    ("Square API Error via proxy: " ++ toString status)))

/-- A concrete host JSON.parse fragment: decodes the empty object literal and
nothing else; faithful to JSON on every string it is applied to below. -/
def parseDemo : String → Option Json :=
  fun s => if s = "{}" then some (Json.obj []) else none

/-! ## createAppointment, proxy variant (src/unnamed/part_000 lines 308 - 352) -/

/-- Remote team member record of the proxy variant fetchTeam search. -/
structure TeamMemberRec where
  id : String
  given_name : String
  family_name : String
  is_owner : Bool
  email_address : String
deriving DecidableEq

/-- fetchTeam of the proxy variant (part_000 lines 162 - 189): every member
of the active search result is translated, none are filtered out. -/
def proxyFetchTeam (members : List TeamMemberRec) : List Stylist :=
  members.map fun m =>
    { id := m.id
      name := m.given_name ++ " " ++ m.family_name
      role := if m.is_owner then "Owner" else "Team Member"
      email := m.email_address
      levelId := "lvl_2"
      permissions :=
        { canBookAppointments := true
          canOfferDiscounts := false
          requiresDiscountApproval := true
          viewGlobalReports := false
          viewClientContact := some true
          viewAllSalonPlans := some false } }

/-- serviceVersionMap of part_000 lines 331 - 336: set (id, version) for every
service whose id and version are truthy; a later set shadows an earlier one. -/
def proxyVersionMap (services : List Service) : List (String × Nat) :=
  services.foldl
    (fun m s => if s.id != "" && s.version != 0 then (s.id, s.version) :: m else m) []

/-- serviceVersionMap.get on the model above. -/
def proxyVersionGet (services : List Service) (sid : String) : Option Nat :=
  (proxyVersionMap services).lookup sid

/-- One appointment segment of the proxy booking body (part_000 lines
343 - 347), as serialized on the wire: an undefined
service_variation_version is dropped by JSON.stringify. -/
def mkProxySegment (services : List Service) (resolvedTm : String) (s : Service) : Json :=
  Json.obj
    ([("team_member_id", Json.str resolvedTm),
      ("service_variation_id", Json.str s.id)] ++
     (match proxyVersionGet services s.id with
      | some v => [("service_variation_version", Json.num (v : JsNum))]
      | none => []))

/-- Proxy booking request body (part_000 lines 338 - 349): note the absence
of any idempotency key field. -/
def mkProxyBookingBody (d : BookingDetails) (resolvedTm : String) : Json :=
  Json.obj
    [("booking", Json.obj
      [("location_id", Json.str d.locationId),
       ("start_at", Json.str d.startAt),
       ("customer_id", Json.str d.customerId),
       ("appointment_segments",
        Json.arr (d.services.map (mkProxySegment d.services resolvedTm)))])]

/-- Requests issued by the proxy createAppointment. -/
inductive ProxyRequest where
  | fetchTeam
  | createBooking (body : Json)

/-- createAppointment, proxy variant (part_000 lines 308 - 352): same guard
and team resolution as the main variant, but the submitted body carries no
idempotency key. -/
def proxyCreateAppointmentRun (members : List TeamMemberRec) (resp : Json)
    (d : BookingDetails) : List ProxyRequest × Except JsThrow Json :=
  if d.locationId = "" then
    ([], .error (.error "Location ID is required for booking."))
  else if d.customerId = "" then
    ([], .error (.error "Customer ID is required for booking."))
  else if isInvalidForFilter d.teamMemberId then
    match proxyFetchTeam members with
    | [] =>
        ([ProxyRequest.fetchTeam],
         .error (.error
           "No bookable team members found in Square to assign this appointment to."))
    | m :: _ =>
        ([ProxyRequest.fetchTeam,
          ProxyRequest.createBooking (mkProxyBookingBody d m.id)],
         .ok resp)
  else
    ([ProxyRequest.createBooking (mkProxyBookingBody d d.teamMemberId)],
     .ok resp)

/-! ## Sample inputs used by witnesses and counterexamples -/

/-- A sample imported service. -/
def sampleService : Service :=
  { id := "SV1", version := 7, name := "Haircut", category := "Square Import"
    cost := 30, duration := 30 }

/-- Booking details with a valid-looking team member id. -/
def sampleDetails : BookingDetails :=
  { locationId := "L1", startAt := "2026-01-05T10:00:00Z", customerId := "CUST1"
    teamMemberId := "real-tm-9", services := [sampleService] }

/-- Booking details with the admin sentinel as team member id. -/
def sampleDetailsAdminTm : BookingDetails :=
  { sampleDetails with teamMemberId := "admin" }

/-- Booking details with an empty customer id. -/
def sampleDetailsNoCustomer : BookingDetails :=
  { sampleDetails with customerId := "" }

/-- A sample booking object of a creation response. -/
def sampleResp : Json := Json.obj [("id", Json.str "BK1")]

/-- A one-member bookable roster. -/
def sampleRoster : Option (List TeamProfile) :=
  some [{ team_member_id := "tm-first", display_name := "Avery", is_bookable := true }]

/-- A catalog whose single bookable variation has a service_duration of 0 ms. -/
def zeroDurationCatalog : Option (List CatalogItem) :=
  some [{ item_data := some
            { name := "Quick Fix"
              variations := some
                [ { id := "V0", version := 3
                    item_variation_data :=
                      { name := "Regular", available_for_booking := true
                        price_money := some { amount := 1500 }
                        service_duration := some 0 } } ] } }]

/-- Two bookings pages: the first carries cursor "c1", the second none. -/
def samplePagesB : List (BookingsPage Nat) :=
  [{ bookings := some [10, 11], cursor := some "c1" },
   { bookings := some [12], cursor := none }]

/-- A sample remote customer. -/
def sampleCustomer : SquareCustomer :=
  { id := "CU7", given_name := some "Dana", family_name := some "Reyes"
    email_address := some "dana@example.com", phone_number := none }

/-- Two customers pages: the first carries cursor "k1", the second none. -/
def samplePagesC : List CustomersPage :=
  [{ customers := some [sampleCustomer], cursor := some "k1" },
   { customers := some [], cursor := none }]

/-- Slot parameters with an unparseable start instant. -/
def sampleSlotParamsBad : SlotParams :=
  { locationId := "L1", startAt := "not-a-date", teamMemberId := "real-tm-9"
    serviceVariationId := "SV1" }

/-- Slot parameters with a parseable start instant. -/
def sampleSlotParamsGood : SlotParams :=
  { locationId := "L1", startAt := "2026-01-05T10:00:00Z", teamMemberId := "real-tm-9"
    serviceVariationId := "SV1" }

/-- A concrete host date parser fragment: parses the one instant used below. -/
def parseDateDemo : String → Option Int :=
  fun s => if s = "2026-01-05T10:00:00Z" then some 1767607200000 else none

/-- A concrete host Date.toISOString stand-in. -/
def toIsoDemo : Int → String := fun t => "iso:" ++ toString t

/-- Availability response used by witnesses, in server order. -/
def sampleAvail : Option (List Availability) :=
  some [{ start_at := "2026-01-05T11:00:00Z" }, { start_at := "2026-01-05T10:30:00Z" }]

/-! ## Theorems -/

/-- C1: for every remote catalog holding one item "Haircut" with bookable
variations "Regular" (3000 minor units, 1800000 ms) and "Deluxe"
(5000 minor units, 2400000 ms), fetchCatalog returns exactly the two services
"Haircut" (cost 30, duration 30) and "Haircut - Deluxe" (cost 50, duration
40); the variation name is appended exactly when it is not "Regular". -/
theorem fetchCatalog_haircut_scenario (rid did : String) (rv dv : Nat) :
    fetchCatalogServices (haircutCatalog rid did rv dv) =
      [{ id := rid, version := rv, name := "Haircut", category := "Square Import"
         cost := 30, duration := 30 },
       { id := did, version := dv, name := "Haircut - Deluxe"
         category := "Square Import", cost := 50, duration := 40 }] := by
  simp [fetchCatalogServices, haircutCatalog, itemServices, serviceName,
        costOfPrice, durationToMinutes, jsTruthyNum]
  norm_num

/-- C5 counterexample: the duration translation used by fetchCatalog in
squareIntegration.ts maps a duration of 0 ms to the default 60 minutes, not
to 0: a zero duration is falsy and takes the absent branch. -/
theorem fetchCatalog_zero_duration_counterexample :
    (fetchCatalogServices zeroDurationCatalog).map Service.duration = [60] ∧
    durationToMinutes (some 0) = 60 ∧ (60 : JsNum) ≠ 0 := by
  refine ⟨?_, ?_, by norm_num⟩
  · simp [fetchCatalogServices, zeroDurationCatalog, itemServices, serviceName,
          costOfPrice, durationToMinutes, jsTruthyNum]
  · simp [durationToMinutes, jsTruthyNum]

/-- C5 amended: for every nonzero duration d in milliseconds both catalog
translations yield d / 60000 minutes; a duration of 0 is falsy and treated as
absent, giving the default 60 in squareIntegration.ts and 0 in the part_000
proxy variant. -/
theorem duration_translation_amended (d : JsNum) (h : d ≠ 0) :
    durationToMinutes (some d) = d / 60000 ∧
    proxyDurationToMinutes (some d) = d / 60000 ∧
    durationToMinutes (some 0) = 60 ∧
    proxyDurationToMinutes (some 0) = 0 := by
  refine ⟨?_, ?_, ?_, ?_⟩ <;>
    simp [durationToMinutes, proxyDurationToMinutes, jsTruthyNum, h]
  · rw [div_div]
    norm_num

/-- C5 amended, witnessed at d = 1800000. -/
theorem duration_translation_amended_witness :
    (1800000 : JsNum) ≠ 0 ∧
    (durationToMinutes (some 1800000) = 1800000 / 60000 ∧
     proxyDurationToMinutes (some 1800000) = 1800000 / 60000 ∧
     durationToMinutes (some 0) = 60 ∧
     proxyDurationToMinutes (some 0) = 0) :=
  ⟨by norm_num, duration_translation_amended 1800000 (by norm_num)⟩

theorem bookingsChainOk_ne_nil {α : Type} (ps : List (BookingsPage α))
    (h : bookingsChainOk ps = true) : ps ≠ [] := by
  intro he
  subst he
  simp [bookingsChainOk] at h

theorem customersChainOk_ne_nil (qs : List CustomersPage)
    (h : customersChainOk qs = true) : qs ≠ [] := by
  intro he
  subst he
  simp [customersChainOk] at h

theorem fetchAllBookingsLoop_chain {α : Type} (ps : List (BookingsPage α))
    (h : bookingsChainOk ps = true) (c : Option String) :
    fetchAllBookingsLoop ps c =
      some ((ps.map fun p => p.bookings.getD []).flatten,
            c :: ps.dropLast.map BookingsPage.cursor) := by
  induction ps generalizing c with
  | nil => simp [bookingsChainOk] at h
  | cons p rest ih =>
    cases rest with
    | nil =>
      simp [bookingsChainOk] at h
      simp [fetchAllBookingsLoop, h]
    | cons q rs =>
      rw [bookingsChainOk, Bool.and_eq_true] at h
      obtain ⟨h1, h2⟩ := h
      have hin := ih h2 p.cursor
      show (let got := p.bookings.getD []
            if jsTruthyStr p.cursor then
              match fetchAllBookingsLoop (q :: rs) p.cursor with
              | none => none
              | some (items, reqs) => some (got ++ items, c :: reqs)
            else some (got, [c])) = _
      rw [hin]
      simp [h1, List.dropLast]

theorem fetchCustomersLoop_chain (enc : String → String) (qs : List CustomersPage)
    (h : customersChainOk qs = true) (c : Option String) :
    fetchCustomersLoop enc qs c =
      some ((qs.map fun p => (p.customers.getD []).map (toClient enc)).flatten,
            c :: qs.dropLast.map CustomersPage.cursor) := by
  induction qs generalizing c with
  | nil => simp [customersChainOk] at h
  | cons p rest ih =>
    cases rest with
    | nil =>
      simp [customersChainOk] at h
      simp [fetchCustomersLoop, h]
    | cons q rs =>
      rw [customersChainOk, Bool.and_eq_true] at h
      obtain ⟨h1, h2⟩ := h
      have hin := ih h2 p.cursor
      show (let got := (p.customers.getD []).map (toClient enc)
            if jsTruthyStr p.cursor then
              match fetchCustomersLoop enc (q :: rs) p.cursor with
              | none => none
              | some (items, reqs) => some (got ++ items, c :: reqs)
            else some (got, [c])) = _
      rw [hin]
      simp [h1, List.dropLast]

/-- C2: on a well-formed sequence of N pages (every page but the last with a
truthy cursor, the last with none), the bulk-fetch loops of fetchAllBookings
and fetchCustomers return exactly the concatenation of the pages item arrays
in page order, issue exactly N requests, and each request after the first
carries verbatim the cursor of the preceding response. -/
theorem paginated_fetch_exact {α : Type} (enc : String → String)
    (ps : List (BookingsPage α)) (qs : List CustomersPage)
    (hp : bookingsChainOk ps = true) (hq : customersChainOk qs = true) :
    (fetchAllBookingsRun ps =
        some ((ps.map fun p => p.bookings.getD []).flatten,
              none :: ps.dropLast.map BookingsPage.cursor) ∧
      (none :: ps.dropLast.map BookingsPage.cursor).length = ps.length) ∧
    (fetchCustomersRun enc qs =
        some ((qs.map fun p => (p.customers.getD []).map (toClient enc)).flatten,
              none :: qs.dropLast.map CustomersPage.cursor) ∧
      (none :: qs.dropLast.map CustomersPage.cursor).length = qs.length) := by
  have hpn : 0 < ps.length :=
    List.length_pos.mpr (bookingsChainOk_ne_nil ps hp)
  have hqn : 0 < qs.length :=
    List.length_pos.mpr (customersChainOk_ne_nil qs hq)
  refine ⟨⟨fetchAllBookingsLoop_chain ps hp none, ?_⟩,
          ⟨fetchCustomersLoop_chain enc qs hq none, ?_⟩⟩
  · simp [List.length_dropLast]
    omega
  · simp [List.length_dropLast]
    omega

/-- C2 witnessed on two concrete two-page sequences. -/
theorem paginated_fetch_exact_witness :
    fetchAllBookingsRun samplePagesB = some ([10, 11, 12], [none, some "c1"]) ∧
    fetchCustomersRun (fun s => s) samplePagesC =
      some ([toClient (fun s => s) sampleCustomer], [none, some "k1"]) := by
  have h := paginated_fetch_exact (fun s => s) samplePagesB samplePagesC
    (by decide) (by decide)
  exact ⟨h.1.1.trans (by decide), h.2.1.trans (by simp [samplePagesC])⟩

/-- C10: every client produced by fetchCustomers has its local id and its
externalId both equal to the remote customer id; on a well-formed page
sequence the run yields exactly one client per remote customer of each page,
none with a divergent externalId. -/
theorem fetchCustomers_externalId_invariant (enc : String → String)
    (qs : List CustomersPage) (hq : customersChainOk qs = true) :
    (∀ c, (toClient enc c).id = c.id ∧ (toClient enc c).externalId = c.id) ∧
    fetchCustomersRun enc qs =
      some ((qs.map fun p => (p.customers.getD []).map (toClient enc)).flatten,
            none :: qs.dropLast.map CustomersPage.cursor) ∧
    (∀ p : CustomersPage,
        ((p.customers.getD []).map (toClient enc)).length
          = (p.customers.getD []).length) ∧
    (∀ cl ∈ (qs.map fun p => (p.customers.getD []).map (toClient enc)).flatten,
        cl.id = cl.externalId) := by
  refine ⟨fun c => ⟨rfl, rfl⟩, fetchCustomersLoop_chain enc qs hq none,
          fun p => List.length_map _ _, ?_⟩
  intro cl hcl
  rw [List.mem_flatten] at hcl
  obtain ⟨l, hl, hcll⟩ := hcl
  rw [List.mem_map] at hl
  obtain ⟨p, hp, rfl⟩ := hl
  rw [List.mem_map] at hcll
  obtain ⟨c, hc, rfl⟩ := hcll
  rfl

/-- C10 witnessed on a concrete page sequence. -/
theorem fetchCustomers_externalId_invariant_witness :
    (toClient (fun s => s) sampleCustomer).id = sampleCustomer.id ∧
    (toClient (fun s => s) sampleCustomer).externalId = sampleCustomer.id ∧
    fetchCustomersRun (fun s => s) samplePagesC =
      some ((samplePagesC.map fun p =>
              (p.customers.getD []).map (toClient (fun s => s))).flatten,
            none :: samplePagesC.dropLast.map CustomersPage.cursor) := by
  have h := fetchCustomers_externalId_invariant (fun s => s) samplePagesC (by decide)
  exact ⟨(h.1 sampleCustomer).1, (h.1 sampleCustomer).2, h.2.1⟩

/-- C6: the shared team member id validity test classifies an id as invalid
for filtering exactly when it is empty, TM- prefixed, or the admin sentinel;
of the four sample inputs only "real-id-123" is valid, and the availability
search body includes the team member filter exactly when the id is valid. -/
theorem team_member_filter_predicate :
    isInvalidForFilter "" = true ∧
    isInvalidForFilter "admin" = true ∧
    isInvalidForFilter "TM-anything" = true ∧
    isInvalidForFilter "real-id-123" = false ∧
    (∀ svc tm, (mkSegmentFilter svc tm).team_member_id_filter =
        (if isInvalidForFilter tm then none else some { any := [tm] })) ∧
    (∀ svc tm, ((mkSegmentFilter svc tm).team_member_id_filter).isSome
        = !(isInvalidForFilter tm)) ∧
    (∀ toIso p t, (mkAvailBody toIso p t).filter.segment_filters
        = [mkSegmentFilter p.serviceVariationId p.teamMemberId]) := by
  refine ⟨by decide, by decide, by decide, by decide,
          fun svc tm => rfl, fun svc tm => ?_, fun toIso p t => rfl⟩
  by_cases h : isInvalidForFilter tm <;> simp [mkSegmentFilter, h]

/-- C7: with an empty locationId or customerId, createAppointment fails with
the corresponding missing-field error and issues no request at all. -/
theorem createAppointment_missing_field_no_request (k : String)
    (profiles : Option (List TeamProfile)) (resp : Json) (d : BookingDetails)
    (h : d.locationId = "" ∨ d.customerId = "") :
    createAppointmentRun k profiles resp d =
      ([], .error (.error
        (if d.locationId = "" then "Location ID is required for booking."
         else "Customer ID is required for booking."))) := by
  unfold createAppointmentRun
  by_cases hl : d.locationId = ""
  · simp [hl]
  · rcases h with h | h
    · exact absurd h hl
    · simp [hl, h]

/-- C7 witnessed on details with an empty customerId. -/
theorem createAppointment_missing_field_no_request_witness :
    createAppointmentRun "uuid-1" sampleRoster sampleResp sampleDetailsNoCustomer =
      ([], .error (.error "Customer ID is required for booking.")) := by
  have h := createAppointment_missing_field_no_request "uuid-1" sampleRoster sampleResp
    sampleDetailsNoCustomer (Or.inr rfl)
  simpa [sampleDetailsNoCustomer, sampleDetails] using h

/-- C8: when the supplied team member id is invalid for filtering,
createAppointment fetches the roster; an empty bookable roster fails with the
no-bookable-staff error and no booking creation request is sent, otherwise
the first bookable member id is substituted into every appointment segment. -/
theorem createAppointment_team_resolution (k : String)
    (profiles : Option (List TeamProfile)) (resp : Json) (d : BookingDetails)
    (hl : d.locationId ≠ "") (hc : d.customerId ≠ "")
    (hi : isInvalidForFilter d.teamMemberId = true) :
    (fetchTeamStylists profiles = [] →
       createAppointmentRun k profiles resp d =
         ([MainRequest.fetchTeam],
          .error (.error
            "No bookable team members found in Square to assign this appointment to."))) ∧
    (∀ m rest, fetchTeamStylists profiles = m :: rest →
       createAppointmentRun k profiles resp d =
         ([MainRequest.fetchTeam,
           MainRequest.createBooking (mkBookingBodyMain k d m.id)], .ok resp) ∧
       ∀ seg ∈ (mkBookingBodyMain k d m.id).booking.appointment_segments,
         seg.team_member_id = m.id) := by
  constructor
  · intro he
    unfold createAppointmentRun
    simp [hl, hc, hi, he]
  · intro m rest hm
    constructor
    · unfold createAppointmentRun
      simp [hl, hc, hi, hm]
    · intro seg hseg
      simp only [mkBookingBodyMain, List.mem_map] at hseg
      obtain ⟨s, hs, rfl⟩ := hseg
      rfl

/-- C8 witnessed on the admin sentinel id and a one-member roster. -/
theorem createAppointment_team_resolution_witness :
    createAppointmentRun "uuid-2" sampleRoster sampleResp sampleDetailsAdminTm =
      ([MainRequest.fetchTeam,
        MainRequest.createBooking
          (mkBookingBodyMain "uuid-2" sampleDetailsAdminTm "tm-first")],
       .ok sampleResp) := by
  have h := (createAppointment_team_resolution "uuid-2" sampleRoster sampleResp
      sampleDetailsAdminTm (by decide) (by decide) (by decide)).2
  have hm : fetchTeamStylists sampleRoster =
      [{ id := "tm-first", name := "Avery", role := "Stylist", email := ""
         levelId := "lvl_1"
         permissions :=
           { canBookAppointments := true, canOfferDiscounts := false
             requiresDiscountApproval := false, viewGlobalReports := false } }] := rfl
  exact (h _ _ hm).1

/-- C9: findAvailableSlots fails with the invalid-input error and issues no
request when startAt does not parse; when it parses, it issues the one search
body and returns the slot start timestamps of the response in server order,
index by index, with no re-sorting. -/
theorem findAvailableSlots_guard_and_order (parseDate : String → Option Int)
    (toIso : Int → String) (avail : Option (List Availability)) (p : SlotParams) :
    (parseDate p.startAt = none →
       findAvailableSlotsRun parseDate toIso avail p =
         ([], .error (.error "Invalid start time passed to Square."))) ∧
    (∀ t, parseDate p.startAt = some t →
       findAvailableSlotsRun parseDate toIso avail p =
         ([mkAvailBody toIso p t],
          .ok ((avail.getD []).map Availability.start_at)) ∧
       ∀ i (hi : i < (avail.getD []).length),
         ((avail.getD []).map Availability.start_at).get
             ⟨i, by simpa using hi⟩ = ((avail.getD []).get ⟨i, hi⟩).start_at) := by
  constructor
  · intro h
    unfold findAvailableSlotsRun
    rw [h]
  · intro t h
    constructor
    · unfold findAvailableSlotsRun
      rw [h]
    · intro i hi
      simp [List.getElem_map]

/-- C9 witnessed on an unparseable and a parseable start instant. -/
theorem findAvailableSlots_guard_and_order_witness :
    findAvailableSlotsRun parseDateDemo toIsoDemo sampleAvail sampleSlotParamsBad =
      ([], .error (.error "Invalid start time passed to Square.")) ∧
    findAvailableSlotsRun parseDateDemo toIsoDemo sampleAvail sampleSlotParamsGood =
      ([mkAvailBody toIsoDemo sampleSlotParamsGood 1767607200000],
       .ok ((sampleAvail.getD []).map Availability.start_at)) :=
  ⟨(findAvailableSlots_guard_and_order parseDateDemo toIsoDemo sampleAvail
      sampleSlotParamsBad).1 rfl,
   ((findAvailableSlots_guard_and_order parseDateDemo toIsoDemo sampleAvail
      sampleSlotParamsGood).2 1767607200000 rfl).1⟩

/-- C3 counterexample: the proxy variant createAppointment (part_000 lines
338 - 351) submits a booking creation body with no idempotency key field at
all, refuting the claim that every submitted body carries a fresh one. -/
theorem createAppointment_proxy_no_idempotency_key :
    (proxyCreateAppointmentRun [] sampleResp sampleDetails).1 =
      [ProxyRequest.createBooking (mkProxyBookingBody sampleDetails "real-tm-9")] ∧
    Json.getField (mkProxyBookingBody sampleDetails "real-tm-9")
        "idempotency_key" = none ∧
    (Json.getField (mkProxyBookingBody sampleDetails "real-tm-9")
        "booking").isSome = true :=
  ⟨rfl, rfl, rfl⟩

/-- C3 amended: the squareIntegration.ts createAppointment attaches the key
generated for the attempt to every booking body it submits, so two attempts
whose generated keys differ never carry the same idempotency key; the
part_000 proxy variant submits no idempotency key at all. -/
theorem createAppointment_idempotency_amended (k1 k2 : String)
    (p1 p2 : Option (List TeamProfile)) (r1 r2 : Json) (d1 d2 : BookingDetails)
    (hk : k1 ≠ k2) :
    (∀ b, MainRequest.createBooking b ∈ (createAppointmentRun k1 p1 r1 d1).1 →
        b.idempotency_key = k1) ∧
    (∀ b1 b2, MainRequest.createBooking b1 ∈ (createAppointmentRun k1 p1 r1 d1).1 →
        MainRequest.createBooking b2 ∈ (createAppointmentRun k2 p2 r2 d2).1 →
        b1.idempotency_key ≠ b2.idempotency_key) := by
  have key : ∀ (k : String) (p : Option (List TeamProfile)) (r : Json)
      (d : BookingDetails) (b : BookingBodyMain),
      MainRequest.createBooking b ∈ (createAppointmentRun k p r d).1 →
      b.idempotency_key = k := by
    intro k p r d b hb
    unfold createAppointmentRun at hb
    split at hb
    · simp at hb
    split at hb
    · simp at hb
    split at hb
    · split at hb
      · simp at hb
      · simp at hb
        subst hb
        rfl
    · simp at hb
      subst hb
      rfl
  refine ⟨key k1 p1 r1 d1, ?_⟩
  intro b1 b2 h1 h2
  rw [key k1 p1 r1 d1 b1 h1, key k2 p2 r2 d2 b2 h2]
  exact hk

/-- C3 amended, witnessed on two attempts with distinct generated keys. -/
theorem createAppointment_idempotency_amended_witness :
    (mkBookingBodyMain "uuid-a" sampleDetails "real-tm-9").idempotency_key ≠
      (mkBookingBodyMain "uuid-b" sampleDetails "real-tm-9").idempotency_key := by
  have e1 : (createAppointmentRun "uuid-a" sampleRoster sampleResp sampleDetails).1 =
      [MainRequest.createBooking
        (mkBookingBodyMain "uuid-a" sampleDetails "real-tm-9")] := rfl
  have e2 : (createAppointmentRun "uuid-b" sampleRoster sampleResp sampleDetails).1 =
      [MainRequest.createBooking
        (mkBookingBodyMain "uuid-b" sampleDetails "real-tm-9")] := rfl
  exact (createAppointment_idempotency_amended "uuid-a" "uuid-b" sampleRoster
      sampleRoster sampleResp sampleResp sampleDetails sampleDetails
      (by decide)).2 _ _
    (e1 ▸ List.mem_singleton.mpr rfl) (e2 ▸ List.mem_singleton.mpr rfl)

/-- C4 counterexample: fetchFromSquare (squareIntegration.ts lines 102 - 108)
calls response.json() directly, so a response whose body is not valid JSON
propagates the raw JSON parse exception to the caller instead of yielding a
synthetic error object carrying the raw text. -/
theorem fetchFromSquare_propagates_parse_exception :
    fetchFromSquareHandle parseDemo true 200 "not json" =
      .error (.jsonSyntaxError "not json") := rfl

/-- C4 amended: squareProxyFetch reads the body as text and decodes it
defensively: every undecodable non-empty body is replaced by the synthetic
object carrying the raw text (returned as-is on a success status, folded into
a normalized thrown Error on a failure status), and no raw JSON parse
exception ever escapes; fetchFromSquare instead propagates the raw parse
exception on every undecodable body, whatever the status. -/
theorem proxy_fetch_defensive_decode (parse : String → Option Json)
    (status : Nat) (text : String) (hp : parse text = none) (ht : text ≠ "") :
    proxyParseBody parse text =
      Json.obj [("error", Json.obj [("detail", Json.str text)])] ∧
    squareProxyFetchHandle parse true status text =
      .ok (Json.obj [("error", Json.obj [("detail", Json.str text)])]) ∧
    (∀ (ok : Bool) (s : String),
        squareProxyFetchHandle parse ok status text ≠
          .error (.jsonSyntaxError s)) ∧
    fetchFromSquareHandle parse true status text =
      .error (.jsonSyntaxError text) ∧
    fetchFromSquareHandle parse false status text =
      .error (.jsonSyntaxError text) := by
  have hbody : proxyParseBody parse text =
      Json.obj [("error", Json.obj [("detail", Json.str text)])] := by
    unfold proxyParseBody
    rw [if_neg ht, hp]
  refine ⟨hbody, ?_, ?_, ?_, ?_⟩
  · unfold squareProxyFetchHandle
    rw [hbody]
    rfl
  · intro ok s h
    unfold squareProxyFetchHandle at h
    cases ok with
    | true => simp at h
    | false => simp at h
  · unfold fetchFromSquareHandle
    rw [hp]
  · unfold fetchFromSquareHandle
    rw [hp]

/-- C4 amended, witnessed on a concrete undecodable body. -/
theorem proxy_fetch_defensive_decode_witness :
    proxyParseBody parseDemo "oops" =
      Json.obj [("error", Json.obj [("detail", Json.str "oops")])] ∧
    squareProxyFetchHandle parseDemo true 500 "oops" =
      .ok (Json.obj [("error", Json.obj [("detail", Json.str "oops")])]) ∧
    fetchFromSquareHandle parseDemo true 500 "oops" =
      .error (.jsonSyntaxError "oops") := by
  have h := proxy_fetch_defensive_decode parseDemo 500 "oops" rfl (by decide)
  exact ⟨h.1, h.2.1, h.2.2.2.1⟩

end SquareSpec
